import Mathlib

/-!
Shallow embedding of the Rointe Home Assistant integration
(`custom_components/rointe/{ws,auth,api,__init__}.py`).

JSON values (the shape of every payload the code manipulates after
`json.loads`) are modelled by `JVal`.  Python's `None` and JSON `null`
coincide after `json.loads`, so both are `JVal.null`; `dict.get(k)` with a
missing key therefore returns `JVal.null` (`pyGet`).  Dictionaries are
association lists in insertion order, matching Python 3.7+ dict semantics.
-/

namespace Rointe

/-- A parsed JSON value (integers suffice for every numeric literal the
claims exercise). -/
inductive JVal where
  | null : JVal
  | bool : Bool → JVal
  | num : Int → JVal
  | str : String → JVal
  | arr : List JVal → JVal
  | obj : List (String × JVal) → JVal

/-- `v[k]` / `v.get(k)` as an `Option` (`none` = key absent or `v` not a
dict). -/
def jGetOpt (v : JVal) (k : String) : Option JVal :=
  match v with
  | .obj kvs => kvs.lookup k
  | _ => none

/-- Python `v.get(k)`: a JSON value, `JVal.null` standing for Python
`None` when the key is absent. -/
def pyGet (v : JVal) (k : String) : JVal :=
  (jGetOpt v k).getD .null

/-- Python `v.get(k, default)`. -/
def pyGetD (v : JVal) (k : String) (dflt : JVal) : JVal :=
  (jGetOpt v k).getD dflt

/-- Python `k in v` for a dict `v`. -/
def jHasKey (v : JVal) (k : String) : Bool :=
  match v with
  | .obj kvs => kvs.any (fun p => p.1 == k)
  | _ => false

/-- Python truthiness of a JSON value (`None`, `False`, `0`, `""`, `[]`,
`{}` are falsy). -/
def pyTruthy (v : JVal) : Bool :=
  match v with
  | .null => false
  | .bool b => b
  | .num n => n != 0
  | .str s => s != ""
  | .arr xs => !xs.isEmpty
  | .obj kvs => !kvs.isEmpty

/-- Python `v == s` for a string literal `s` (true only when `v` is that
very string; Python never equates a string with a number or `None`). -/
def jIsStrEq (v : JVal) (s : String) : Bool :=
  match v with
  | .str t => t == s
  | _ => false

/-- Python `f"{v}"` on the scalar values the code interpolates into paths
and dispatcher signal names.  In every path the theorems exercise the
value is a scalar; composite values never reach stringification. -/
def pyToStr (v : JVal) : String :=
  match v with
  | .null => "None"
  | .bool true => "True"
  | .bool false => "False"
  | .num n => toString n
  | .str s => s
  | .arr _ => "<list>"
  | .obj _ => "<dict>"

/-- Python truthiness of an optional string (`not self._user_id` style
checks: absent or empty is falsy). -/
def pyStrTruthy (o : Option String) : Bool :=
  match o with
  | some s => s != ""
  | none => false

/-- Python `d[k] = v` on an insertion-ordered dict: overwrite in place if
the key exists (dict keys are unique, so at most one entry matches), else
append. -/
def dictSet : List (String × JVal) → String → JVal → List (String × JVal)
  | [], k, v => [(k, v)]
  | p :: rest, k, v =>
    if p.1 == k then (k, v) :: rest else p :: dictSet rest k v

/-- `str.split("/")` on the character list (single-character separator, so
Python and this definition agree; `"".split("/") == [""]`). -/
def splitSlashChars : List Char → List (List Char)
  | [] => [[]]
  | c :: cs =>
    let r := splitSlashChars cs
    if c = '/' then [] :: r
    else
      match r with
      | [] => [[c]]
      | s :: rest => (c :: s) :: rest

/-- `path.split("/")` as strings. -/
def pathSegs (s : String) : List String :=
  (splitSlashChars s.data).map (fun cs => ⟨cs⟩)

/-- `s.startswith(pre)`. -/
def pyStartsWith (s pre : String) : Bool :=
  pre.data.isPrefixOf s.data

/-- All suffixes of a character list (longest first, ending with `[]`). -/
def suffixes : List Char → List (List Char)
  | [] => [[]]
  | c :: cs => (c :: cs) :: suffixes cs

/-- Python substring test `needle in hay` for strings. -/
def strContains (hay needle : String) : Bool :=
  (suffixes hay.data).any (fun s => needle.data.isPrefixOf s)

/-!
## `RointeWebSocket._handle_message` (ws.py lines 209-286)

`rointeData` is `hass.data["rointe"]` viewed as the list of its entry
values (iteration order = insertion order); `pending` is the set of keys
of `self._pending_requests` (request ids are the ints produced by
`_next_rid`).  The handler's result is the list of
`async_dispatcher_send(hass, signal, payload)` calls it performs, in
order.  The Python handler wraps its whole body in `try/except`, so an
exception raised mid-way is swallowed after the publishes already made;
branches below that return the accumulated list with a `false` flag model
exactly that.
-/

/-- `f"{SIGNAL_UPDATE}_{device_id}"` (ws.py line 250 / 277 / 282). -/
def mkSignal (deviceId : JVal) : String :=
  "rointe_device_update_" ++ pyToStr deviceId

/-- Inner loop of the zone branch (ws.py lines 244-252): scan one entry's
`devices` list, publishing to every device whose `zone_id` equals the
zone from the path and whose `id` is truthy.  A non-dict device raises
`AttributeError` (swallowed by the handler), modelled by the `false`
flag aborting the scan. -/
def zoneDevScan : List JVal → String → JVal → List (String × JVal) × Bool
  | [], _, _ => ([], true)
  | .obj kvs :: rest, z, u =>
    let d := JVal.obj kvs
    let hd :=
      if jIsStrEq (pyGet d "zone_id") z && pyTruthy (pyGet d "id") then
        [(mkSignal (pyGet d "id"), u)]
      else []
    let t := zoneDevScan rest z u
    (hd ++ t.1, t.2)
  | _ :: _, _, _ => ([], false)

/-- Outer loop of the zone branch (ws.py lines 241-252): iterate the
`hass.data["rointe"]` entry values, skipping entries that are not dicts
or lack a `"devices"` key; a `"devices"` value that is not a list raises
when iterated (swallowed), aborting with the publishes made so far. -/
def zonePublishEntries : List JVal → String → JVal → List (String × JVal)
  | [], _, _ => []
  | e :: rest, z, u =>
    match e with
    | .obj _ =>
      if jHasKey e "devices" then
        match jGetOpt e "devices" with
        | some (.arr devs) =>
          let t := zoneDevScan devs z u
          if t.2 then t.1 ++ zonePublishEntries rest z u else t.1
        | _ => []
      else zonePublishEntries rest z u
    | _ => zonePublishEntries rest z u

/-- Inner loop of the serial→UUID search (ws.py lines 263-266): the first
device of one entry whose `serialNumber` equals the path serial; its
`id` value is the candidate (Python `None` if the key is missing).
`.error` models the `AttributeError` of `.get` on a non-dict device. -/
def entryScanSerial : List JVal → String → Except Unit (Option JVal)
  | [], _ => .ok none
  | .obj kvs :: rest, s =>
    if jIsStrEq (pyGet (.obj kvs) "serialNumber") s then
      .ok (some (pyGet (.obj kvs) "id"))
    else entryScanSerial rest s
  | _ :: _, _ => .error ()

/-- Serial→UUID translation (ws.py lines 259-268): first entry whose
candidate UUID is truthy wins (`if device_uuid: break`); an untruthy
candidate lets the search continue with the next entry. -/
def findUuid : List JVal → String → Except Unit (Option JVal)
  | [], _ => .ok none
  | e :: rest, s =>
    match e with
    | .obj _ =>
      if jHasKey e "devices" then
        match jGetOpt e "devices" with
        | some (.arr devs) =>
          match entryScanSerial devs s with
          | .error _ => .error ()
          | .ok (some v) => if pyTruthy v then .ok (some v) else findUuid rest s
          | .ok none => findUuid rest s
        | _ => .error ()
      else findUuid rest s
    | _ => findUuid rest s

/-- Device branch payload dispatch (ws.py lines 274-283): full snapshot
if `updates` has a dict under `"data"`, else incremental when the path
contains `"/data"`.  Python `"data" in updates` raises `TypeError` when
`updates` is not a container (swallowed → no publish); on strings it is a
substring test and the following subscript raises; on lists it is
membership and the following subscript raises. -/
def devicePublish (uuid : JVal) (path : String) (updates : JVal) :
    List (String × JVal) :=
  match updates with
  | .obj _ =>
    match jGetOpt updates "data" with
    | some (.obj dkvs) => [(mkSignal uuid, .obj dkvs)]
    | _ => if strContains path "/data" then [(mkSignal uuid, updates)] else []
  | .str s =>
    if strContains s "data" then []
    else if strContains path "/data" then [(mkSignal uuid, .str s)] else []
  | .arr xs =>
    if xs.any (fun v => jIsStrEq v "data") then []
    else if strContains path "/data" then [(mkSignal uuid, .arr xs)] else []
  | _ => []

/-- `RointeWebSocket._handle_message` on an already-parsed frame (ws.py
lines 209-286), returning the dispatcher publishes it performs. -/
def handleMessage (rointeData : List JVal) (pending : List Int)
    (payload : JVal) : List (String × JVal) :=
  if jIsStrEq (pyGet payload "t") "d" = false then []
  else
    let body := pyGetD payload "d" (.obj [])
    -- `"r" in body and body["r"] in self._pending_requests` (keys are ints)
    if (match pyGet body "r" with
        | .num r => pending.contains r
        | _ => false) then []
    else if jHasKey body "b" = false then []
    else
      let b := pyGet body "b"
      if jHasKey b "p" && jHasKey b "d" &&
          (jIsStrEq (pyGet b "a") "d" || jIsStrEq (pyGet b "a") "m") then
        match pyGet b "p" with
        | .str path =>
          let updates := pyGet b "d"
          if pyStartsWith path "zones/" && strContains path "/data" then
            let zoneId := (pathSegs path).getD 1 ""
            zonePublishEntries rointeData zoneId updates
          else if pyStartsWith path "devices/" then
            let serial := (pathSegs path).getD 1 ""
            match findUuid rointeData serial with
            | .error _ => []
            | .ok none => []
            | .ok (some uuid) => devicePublish uuid path updates
          else []
        | _ => []
      else []

/-!
## `RointeWebSocket._subscribe_to_devices` (ws.py lines 111-177)

After the warm-up GETs, the subscribe (`"a": "q"`) frames are sent: one
per distinct truthy `zone_id` with path `/zones/{zone_id}/data`, then one
per device with a truthy `serialNumber` with path `/devices/{serial}`.
The function below computes the paths of those subscribe frames from the
stored device list (the same pure computation runs on the initial
connection and on every reconnect, since `_connect` re-invokes it on the
unchanged `hass.data`).
-/

/-- Equality of the scalar JSON values usable as Python `set` elements
(lists/dicts are unhashable and would raise before any frame is sent, so
they never appear here). -/
def scalarBeq (a b : JVal) : Bool :=
  match a, b with
  | .null, .null => true
  | .bool x, .bool y => x == y
  | .num x, .num y => x == y
  | .str x, .str y => x == y
  | _, _ => false

/-- Deduplication performed by `set(...)` (ws.py line 127); first
occurrence kept. -/
def dedupScalar (l : List JVal) : List JVal :=
  l.foldl (fun acc x => if acc.any (scalarBeq x) then acc else acc ++ [x]) []

/-- `set(d.get("zone_id") for d in devices if d.get("zone_id"))`
(ws.py line 127). -/
def zoneIdsOf (devices : List JVal) : List JVal :=
  dedupScalar (devices.filterMap (fun d =>
    if pyTruthy (pyGet d "zone_id") then some (pyGet d "zone_id") else none))

/-- Paths of the subscribe frames sent by `_subscribe_to_devices`
(ws.py lines 154-172), zones first then device serials, skipping devices
with a falsy `serialNumber`. -/
def subscriptionPaths (devices : List JVal) : List String :=
  (zoneIdsOf devices).map (fun z => "/zones/" ++ pyToStr z ++ "/data")
    ++ devices.filterMap (fun d =>
        if pyTruthy (pyGet d "serialNumber") then
          some ("/devices/" ++ pyToStr (pyGet d "serialNumber"))
        else none)

/-!
## `RointeAPI.list_devices` (api.py lines 114-216)

Pure traversal of the `/installations` response: non-dict installations,
non-list `zones`, non-dict zones, non-list `devices`, non-dict devices
and devices with a falsy `id` are skipped with a log; a top-level
response that is not a list (after unwrapping an optional `data`
envelope) raises `RointeAPIError`.
-/

/-- Build one `device_info` dict (api.py lines 176-193); `none` when the
device entry is skipped. -/
def deviceInfoOf (zoneName : JVal) (d : JVal) : Option JVal :=
  match d with
  | .obj _ =>
    let did := pyGet d "id"
    if pyTruthy did then
      some (.obj [("id", did), ("name", pyGetD d "name" did), ("zone", zoneName),
        ("model", pyGet d "model"), ("power", pyGet d "power"),
        ("version", pyGet d "version"), ("type", pyGet d "type"),
        ("serialNumber", pyGet d "serialNumber"), ("mac", pyGet d "mac"),
        ("deviceStatus", pyGet d "deviceStatus")])
    else none
  | _ => none

/-- Devices contributed by one zone entry (api.py lines 153-201). -/
def devicesOfZone (z : JVal) : List JVal :=
  match z with
  | .obj _ =>
    let zoneName := pyGetD z "name" (.str ("Zone " ++ pyToStr (pyGet z "id")))
    match pyGetD z "devices" (.arr []) with
    | .arr devs => devs.filterMap (deviceInfoOf zoneName)
    | _ => []
  | _ => []

/-- Devices contributed by one installation entry (api.py lines 139-209). -/
def devicesOfInst (inst : JVal) : List JVal :=
  match inst with
  | .obj _ =>
    match pyGetD inst "zones" (.arr []) with
    | .arr zones => zones.foldl (fun acc z => acc ++ devicesOfZone z) []
    | _ => []
  | _ => []

/-- `RointeAPI.list_devices` given the parsed `/installations` response
(api.py lines 114-216). -/
def listDevices (resp : JVal) : Except String (List JVal) :=
  let installations :=
    match jGetOpt resp "data" with
    | some v => v
    | none => resp
  match installations with
  | .arr insts => .ok (insts.foldl (fun acc inst => acc ++ devicesOfInst inst) [])
  | _ => .error "Invalid installations response format"

/-!
## `RointeAuth` (auth.py)

Time is an integer number of seconds (`datetime.now()` → `now : Int`,
`timedelta(seconds=e)` → `e`).  Network outcomes are collapsed to the
success fields the code extracts versus a failure constructor: every
non-200 status and every network/unexpected error makes the Python method
raise the kind-specific `Rointe*AuthError`, modelled as `.error ()`.
Response fields read with `.get` can be absent (Python `None`), hence
`Option`.
-/

/-- The token state of `RointeAuth` (auth.py lines 55-63).  The
`_rest_refresh_token` slot written by `async_login_rest` (line 119) is
never read anywhere, so it is omitted. -/
structure AuthSt where
  restToken : Option String := none
  restExpiry : Option Int := none
  userId : Option String := none
  fbToken : Option String := none
  fbRefresh : Option String := none
  fbExpiry : Option Int := none
deriving DecidableEq

/-- `TOKEN_EXPIRY_BUFFER = timedelta(minutes=5)` (auth.py line 28), in
seconds. -/
def TOKEN_EXPIRY_BUFFER : Int := 300

/-- Outcome of the REST login HTTP call: on 200 the code reads
`data.token`, `data.user.id` and `data.expires_in` (default 3600). -/
inductive RestLoginResp where
  | success (token : Option String) (userId : Option String) (expiresIn : Option Int)
  | failure
deriving DecidableEq

/-- Outcome of the Firebase `signInWithPassword` call: on 200 the code
reads `idToken`, `refreshToken` and `expiresIn` (default 3600). -/
inductive FbLoginResp where
  | success (idToken : Option String) (refreshToken : Option String) (expiresIn : Option Int)
  | failure
deriving DecidableEq

/-- Outcome of the Firebase refresh-token call: on 200 the code reads
`id_token`, `refresh_token` and `expires_in` (default 3600). -/
inductive FbRefreshResp where
  | success (idToken : Option String) (refreshToken : Option String) (expiresIn : Option Int)
  | failure
deriving DecidableEq

/-- `RointeAuth.async_login_rest` (auth.py lines 88-146). -/
def loginRest (st : AuthSt) (now : Int) (resp : RestLoginResp) :
    Except Unit AuthSt :=
  match resp with
  | .success tok uid ei =>
    .ok { st with restToken := tok, userId := uid,
                  restExpiry := some (now + ei.getD 3600) }
  | .failure => .error ()

/-- `RointeAuth.async_login_firebase` (auth.py lines 148-210); raises if
`self._user_id` is falsy. -/
def loginFirebase (st : AuthSt) (now : Int) (resp : FbLoginResp) :
    Except Unit AuthSt :=
  if pyStrTruthy st.userId = false then .error ()
  else
    match resp with
    | .success idTok refTok ei =>
      .ok { st with fbToken := idTok, fbRefresh := refTok,
                    fbExpiry := some (now + ei.getD 3600) }
    | .failure => .error ()

/-- `RointeAuth._async_refresh_firebase_token` (auth.py lines 256-299). -/
def refreshFirebase (st : AuthSt) (now : Int) (resp : FbRefreshResp) :
    Except Unit AuthSt :=
  match resp with
  | .success idTok refTok ei =>
    .ok { st with fbToken := idTok, fbRefresh := refTok,
                  fbExpiry := some (now + ei.getD 3600) }
  | .failure => .error ()

/-- Staleness test of `async_rest_token` (auth.py lines 220-222):
token falsy, expiry absent, or `now + buffer >= expiry`. -/
def restStale (st : AuthSt) (now : Int) : Bool :=
  !(pyStrTruthy st.restToken) || st.restExpiry.isNone
    || decide (st.restExpiry.getD 0 ≤ now + TOKEN_EXPIRY_BUFFER)

/-- `RointeAuth.async_rest_token` (auth.py lines 212-227): refresh when
stale (propagating a login failure), then return the stored token. -/
def asyncRestToken (st : AuthSt) (now : Int) (resp : RestLoginResp) :
    Except Unit (Option String × AuthSt) :=
  if restStale st now then
    match loginRest st now resp with
    | .error e => .error e
    | .ok st' => .ok (st'.restToken, st')
  else .ok (st.restToken, st)

/-- Staleness test of `async_firebase_token` (auth.py lines 237-239). -/
def fbStale (st : AuthSt) (now : Int) : Bool :=
  !(pyStrTruthy st.fbToken) || st.fbExpiry.isNone
    || decide (st.fbExpiry.getD 0 ≤ now + TOKEN_EXPIRY_BUFFER)

/-- `RointeAuth.async_firebase_token` (auth.py lines 229-254): when stale,
try the refresh grant if a refresh token is present, falling back to a
full sign-in when the refresh fails; then return the stored token. -/
def asyncFirebaseToken (st : AuthSt) (now : Int) (refreshResp : FbRefreshResp)
    (loginResp : FbLoginResp) : Except Unit (Option String × AuthSt) :=
  if fbStale st now then
    if pyStrTruthy st.fbRefresh then
      match refreshFirebase st now refreshResp with
      | .ok st' => .ok (st'.fbToken, st')
      | .error _ =>
        match loginFirebase st now loginResp with
        | .ok st' => .ok (st'.fbToken, st')
        | .error e => .error e
    else
      match loginFirebase st now loginResp with
      | .ok st' => .ok (st'.fbToken, st')
      | .error e => .error e
  else .ok (st.fbToken, st)

/-- `RointeAuth.is_firebase_token_valid` (auth.py lines 327-331). -/
def isFbTokenValid (st : AuthSt) (now : Int) : Bool :=
  st.fbToken.isSome &&
    (match st.fbExpiry with
     | some e => decide (now < e)
     | none => false)

/-!
## `async_setup_entry` (__init__.py lines 22-125)

A REST login failure raises `ConfigEntryNotReady` (re-wrapped by the
outer `except`, still aborting setup) → `.error ()`.  A Firebase login
failure is caught with a warning and setup continues; the websocket
client is only created when `auth.is_firebase_token_valid()`, and a
`connect()` exception is caught, leaving `ws = None` (`wsConnectOk`
models whether `connect()` succeeds).  The resulting
`hass.data[DOMAIN][entry_id]` dict is `SetupData`.
-/

structure SetupData where
  auth : AuthSt
  ws : Option Unit
  devices : List JVal

/-- `async_setup_entry`, parametrised by the outcomes of the two logins,
of `ws.connect()`, and by the discovered device list (discovery errors
already collapse to `[]` inside the function, __init__.py lines 86-92). -/
def setupEntry (now : Int) (email password : Option String)
    (restResp : RestLoginResp) (fbResp : FbLoginResp) (wsConnectOk : Bool)
    (devices : List JVal) : Except Unit SetupData :=
  if !(pyStrTruthy email && pyStrTruthy password) then .error ()
  else
    match loginRest {} now restResp with
    | .error _ => .error ()
    | .ok st1 =>
      let st2 :=
        match loginFirebase st1 now fbResp with
        | .error _ => st1
        | .ok s => s
      let ws : Option Unit :=
        if isFbTokenValid st2 now then
          if wsConnectOk then some () else none
        else none
      .ok { auth := st2, ws := ws, devices := devices }

/-!
## `RointeWebSocket.send` (ws.py lines 290-340)

The function returns `None` on every path (bare `return` on the
disconnected and serial-less paths, falling off the end on success, and
the `except` swallows everything) — `retval` records that value.
`writes` is the list of frames given to `ws.send_str`, `updatesAfter` the
caller's `updates` dict after the in-place timestamp mutation, `rid` the
request counter after the call.
-/

/-- Inner loop of the UUID→serial lookup (ws.py lines 305-308): first
device of one entry whose `id` equals the target; its `serialNumber` is
the candidate. -/
def entryScanId : List JVal → String → Except Unit (Option JVal)
  | [], _ => .ok none
  | .obj kvs :: rest, did =>
    if jIsStrEq (pyGet (.obj kvs) "id") did then
      .ok (some (pyGet (.obj kvs) "serialNumber"))
    else entryScanId rest did
  | _ :: _, _ => .error ()

/-- UUID→serial lookup (ws.py lines 301-310): first entry whose candidate
serial is truthy wins (`if device_serial: break`). -/
def findSerial : List JVal → String → Except Unit (Option JVal)
  | [], _ => .ok none
  | e :: rest, did =>
    match e with
    | .obj _ =>
      if jHasKey e "devices" then
        match jGetOpt e "devices" with
        | some (.arr devs) =>
          match entryScanId devs did with
          | .error _ => .error ()
          | .ok (some v) => if pyTruthy v then .ok (some v) else findSerial rest did
          | .ok none => findSerial rest did
        | _ => .error ()
      else findSerial rest did
    | _ => findSerial rest did

/-- The merge-write frame built by `send` (ws.py lines 320-330). -/
def sendFrame (rid : Int) (serial : JVal) (upd : List (String × JVal)) : JVal :=
  .obj [("t", .str "d"),
        ("d", .obj [("r", .num rid),
                    ("b", .obj [("p", .str ("/devices/" ++ pyToStr serial ++ "/data")),
                                ("d", .obj upd)]),
                    ("a", .str "m")])]

structure SendOut where
  writes : List JVal
  retval : JVal
  updatesAfter : List (String × JVal)
  rid : Int

/-- `RointeWebSocket.send` (ws.py lines 290-340).  `connected` is
`self.ws and not self.ws.closed`; `rointeData` as in `handleMessage`;
`nowMs = int(datetime.now().timestamp() * 1000)`. -/
def sendWs (connected : Bool) (rointeData : List JVal) (deviceId : String)
    (updates : List (String × JVal)) (nowMs : Int) (rid : Int) : SendOut :=
  if !connected then
    { writes := [], retval := .null, updatesAfter := updates, rid := rid }
  else
    match findSerial rointeData deviceId with
    | .error _ =>
      { writes := [], retval := .null, updatesAfter := updates, rid := rid }
    | .ok none =>
      { writes := [], retval := .null, updatesAfter := updates, rid := rid }
    | .ok (some serialV) =>
      let updates' := dictSet updates "last_sync_datetime_device" (.num nowMs)
      let rid' := rid + 1
      { writes := [sendFrame rid' serialV updates'], retval := .null,
        updatesAfter := updates', rid := rid' }

/-!
## `RointeWebSocket._schedule_reconnect` (ws.py lines 375-391)

`base_reconnect_delay = 1`, `max_reconnect_delay = 60`,
`jitter_range = 0.1`.  The uniform draw `random.uniform(-0.1, 0.1)` is
the parameter `u`; arithmetic is over `ℚ`.
-/

/-- Delay computed for the `attempts`-th consecutive reconnect attempt
(ws.py lines 382-387). -/
def reconnectDelay (attempts : ℕ) (u : ℚ) : ℚ :=
  let delay := min ((1 : ℚ) * 2 ^ (attempts - 1)) 60
  max 0 (delay + u * delay)

/-! ## String lemmas -/

theorem isPrefixOf_append_self (a b : List Char) : a.isPrefixOf (a ++ b) = true := by
  induction a with
  | nil => simp [List.isPrefixOf]
  | cons c cs ih => simp [List.isPrefixOf, ih]

theorem splitSlashChars_append (a b : List Char) (h : '/' ∉ a) :
    splitSlashChars (a ++ '/' :: b) = a :: splitSlashChars b := by
  induction a with
  | nil => simp [splitSlashChars]
  | cons c cs ih =>
    have h1 : ¬ c = '/' := fun hc => h (by simp [hc])
    have h2 : '/' ∉ cs := fun hc => h (List.mem_cons_of_mem _ hc)
    simp only [List.cons_append, splitSlashChars, List.append_eq, ih h2]
    rw [if_neg h1]

theorem strContains_append (pre mid : String) :
    strContains (pre ++ mid) mid = true := by
  show (suffixes (pre ++ mid).data).any _ = true
  have hd : (pre ++ mid).data = pre.data ++ mid.data := rfl
  rw [hd]
  induction pre.data with
  | nil =>
    cases hm : mid.data with
    | nil => simp [suffixes, List.isPrefixOf]
    | cons c cs => simp [suffixes, List.any_cons, isPrefixOf_append_self, hm]
  | cons c cs ih =>
    simp only [List.cons_append, suffixes, List.any_cons, List.append_eq, ih,
      Bool.or_true]

theorem pathSegs_zone (Z : String) (h : '/' ∉ Z.data) :
    pathSegs ("zones/" ++ Z ++ "/data") = ["zones", Z, "data"] := by
  have hd : ("zones/" ++ Z ++ "/data").data
      = ['z','o','n','e','s'] ++ '/' :: (Z.data ++ '/' :: ['d','a','t','a']) := by
    show ("zones/".data ++ Z.data) ++ "/data".data = _
    simp
  unfold pathSegs
  rw [hd, splitSlashChars_append _ _ (by decide), splitSlashChars_append _ _ h]
  simp [splitSlashChars]

theorem pathSegs_device (S : String) (h : '/' ∉ S.data) :
    pathSegs ("devices/" ++ S ++ "/data") = ["devices", S, "data"] := by
  have hd : ("devices/" ++ S ++ "/data").data
      = ['d','e','v','i','c','e','s'] ++ '/' :: (S.data ++ '/' :: ['d','a','t','a']) := by
    show ("devices/".data ++ S.data) ++ "/data".data = _
    simp
  unfold pathSegs
  rw [hd, splitSlashChars_append _ _ (by decide), splitSlashChars_append _ _ h]
  simp [splitSlashChars]

theorem startsWith_zones (Z : String) :
    pyStartsWith ("zones/" ++ Z ++ "/data") "zones/" = true := by
  show "zones/".data.isPrefixOf (("zones/".data ++ Z.data) ++ "/data".data) = true
  rw [List.append_assoc]
  exact isPrefixOf_append_self _ _

theorem startsWith_devices (S : String) :
    pyStartsWith ("devices/" ++ S ++ "/data") "devices/" = true := by
  show "devices/".data.isPrefixOf (("devices/".data ++ S.data) ++ "/data".data) = true
  rw [List.append_assoc]
  exact isPrefixOf_append_self _ _

theorem not_startsWith_zones (S : String) :
    pyStartsWith ("devices/" ++ S ++ "/data") "zones/" = false := by
  simp [pyStartsWith, List.isPrefixOf]

theorem contains_slash_data_zone (Z : String) :
    strContains ("zones/" ++ Z ++ "/data") "/data" = true :=
  strContains_append ("zones/" ++ Z) "/data"

theorem contains_slash_data_device (S : String) :
    strContains ("devices/" ++ S ++ "/data") "/data" = true :=
  strContains_append ("devices/" ++ S) "/data"

/-! ## Claim C1 -/

/-- The stored device list of claim C1: serial `SN123` maps to internal
UUID `uuid-A`. -/
def c1Data : List JVal :=
  [.obj [("devices", .arr [.obj [("serialNumber", .str "SN123"),
                                 ("id", .str "uuid-A")]])]]

/-- The exact frame of claim C1:
`{"t":"d","d":{"b":{"p":"devices/SN123/data","d":{"temp":21}}}}`. -/
def c1SpecFrame : JVal :=
  .obj [("t", .str "d"),
        ("d", .obj [("b", .obj [("p", .str "devices/SN123/data"),
                                ("d", .obj [("temp", .num 21)])])])]

/-- The same push with the action tag at the `d` level, where the
Firebase wire format (and the client's own outbound frames, ws.py
lines 320-330) carries it. -/
def c1DLevelActionFrame : JVal :=
  .obj [("t", .str "d"),
        ("d", .obj [("a", .str "d"),
                    ("b", .obj [("p", .str "devices/SN123/data"),
                                ("d", .obj [("temp", .num 21)])])])]

/-- The same push with the action tag inside `b`, the only place
`_handle_message` looks for it (ws.py line 231). -/
def c1BLevelActionFrame : JVal :=
  .obj [("t", .str "d"),
        ("d", .obj [("b", .obj [("p", .str "devices/SN123/data"),
                                ("d", .obj [("temp", .num 21)]),
                                ("a", .str "d")])])]

/-- C1: the message handler, given the frame
`{"t":"d","d":{"b":{"p":"devices/SN123/data","d":{"temp":21}}}}` and a
device list mapping serial SN123 to UUID uuid-A, performs NO dispatcher
publish (the claim says exactly one publish keyed by uuid-A): the code
demands the action tag `a ∈ {"d","m"}` inside `b`, which neither the
claimed frame nor a wire-format frame (action at the `d` level) carries;
only a frame with the action misplaced into `b` produces the claimed
single publish. -/
theorem c1_handler_drops_spec_frame :
    handleMessage c1Data [] c1SpecFrame = [] ∧
    handleMessage c1Data [] c1DLevelActionFrame = [] ∧
    handleMessage c1Data [] c1BLevelActionFrame
      = [("rointe_device_update_uuid-A", .obj [("temp", .num 21)])] :=
  ⟨rfl, rfl, rfl⟩

/-! ## Claim C2 -/

/-- A well-formed `/installations` response: one installation, one zone
with id `Z1` and name `Kitchen`, containing one device `D1` with serial
`S1`. -/
def c2Resp : JVal :=
  .obj [("data", .arr [.obj [("zones", .arr [.obj
    [("id", .str "Z1"), ("name", .str "Kitchen"),
     ("devices", .arr [.obj [("id", .str "D1"),
                             ("serialNumber", .str "S1")]])]])]])]

/-- The `device_info` record `list_devices` builds for that response
(api.py lines 182-193): note it has NO `zone_id` key — only the zone
name under `"zone"`. -/
def c2DevInfo : JVal :=
  .obj [("id", .str "D1"), ("name", .str "D1"), ("zone", .str "Kitchen"),
        ("model", .null), ("power", .null), ("version", .null),
        ("type", .null), ("serialNumber", .str "S1"), ("mac", .null),
        ("deviceStatus", .null)]

/-- C2: for a device list produced by discovery, the subscription step
never sends the device's zone subscribe frame.  `list_devices` emits
device records without any `zone_id` key, so `d.get("zone_id")` is
`None` for every discovered device and `_subscribe_to_devices` computes
an empty zone set: the only subscribe path sent for the discovered
device D1 (zone Z1, serial S1) is `/devices/S1`, and `/zones/Z1/data` is
never subscribed — contradicting the claimed invariant that every known
device's zone path has a subscribe frame sent. -/
theorem c2_discovery_breaks_zone_subscription :
    listDevices c2Resp = .ok [c2DevInfo] ∧
    pyGet c2DevInfo "zone_id" = .null ∧
    subscriptionPaths [c2DevInfo] = ["/devices/S1"] :=
  ⟨rfl, rfl, rfl⟩

/-! ## Claim C3 -/

/-- C3 is false: starting from an empty auth state at time 0, a REST
login whose server response carries `expires_in = 10` makes
`async_rest_token` return token `"T1"` without raising, yet the stored
expiry minus the current time is 10 s, far below the 5-minute buffer. -/
theorem c3_counterexample :
    asyncRestToken {} 0 (.success (some "T1") (some "U1") (some 10))
      = .ok (some "T1", { restToken := some "T1", restExpiry := some 10,
                          userId := some "U1" }) ∧
    (10 : Int) - 0 < TOKEN_EXPIRY_BUFFER := ⟨rfl, by decide⟩

/-- C3 (amended): the buffer guarantee holds exactly on the cached path.
For both token kinds, whenever the getter returns WITHOUT triggering a
refresh (its staleness test is false), the returned token's remaining
lifetime strictly exceeds the 5-minute buffer — and no network call is
consulted (the responses are irrelevant, here instantiable even by
`.failure`).  When a refresh is triggered, the fresh token's lifetime is
whatever `expires_in` the server supplied (see the counterexample). -/
theorem c3_amended (st : AuthSt) (now : Int) (rresp : RestLoginResp)
    (fr : FbRefreshResp) (fl : FbLoginResp)
    (hr : restStale st now = false) (hf : fbStale st now = false) :
    asyncRestToken st now rresp = .ok (st.restToken, st) ∧
    TOKEN_EXPIRY_BUFFER < st.restExpiry.getD 0 - now ∧
    asyncFirebaseToken st now fr fl = .ok (st.fbToken, st) ∧
    TOKEN_EXPIRY_BUFFER < st.fbExpiry.getD 0 - now := by
  have hr' := hr
  have hf' := hf
  simp only [restStale, Bool.or_eq_false_iff, decide_eq_false_iff_not,
    not_le] at hr'
  simp only [fbStale, Bool.or_eq_false_iff, decide_eq_false_iff_not,
    not_le] at hf'
  exact ⟨by simp [asyncRestToken, hr], by omega,
    by simp [asyncFirebaseToken, hf], by omega⟩

/-- A fully-populated auth state whose tokens expire at 1000 s / 2000 s. -/
def c3CachedSt : AuthSt :=
  { restToken := some "T", restExpiry := some 1000, userId := some "U",
    fbToken := some "F", fbRefresh := some "R", fbExpiry := some 2000 }

/-- Witness for `c3_amended` at time 0 on `c3CachedSt`. -/
theorem c3_amended_witness :
    restStale c3CachedSt 0 = false ∧ fbStale c3CachedSt 0 = false ∧
    (asyncRestToken c3CachedSt 0 .failure = .ok (some "T", c3CachedSt) ∧
     TOKEN_EXPIRY_BUFFER < (c3CachedSt.restExpiry).getD 0 - 0 ∧
     asyncFirebaseToken c3CachedSt 0 .failure .failure
       = .ok (some "F", c3CachedSt) ∧
     TOKEN_EXPIRY_BUFFER < (c3CachedSt.fbExpiry).getD 0 - 0) :=
  ⟨rfl, rfl, c3_amended c3CachedSt 0 .failure .failure .failure rfl rfl⟩

/-! ## Claim C7 -/

/-- C7 is false: a REST login at time 0 with `expires_in = 3600` stores
expiry 3600 = now + expires_in, NOT `now + expires_in - margin` with
margin ≥ 60 (that would require the stored expiry to be at most 3540). -/
theorem c7_counterexample :
    loginRest {} 0 (.success (some "T") (some "U") (some 3600))
      = .ok { restToken := some "T", userId := some "U",
              restExpiry := some 3600 } ∧
    ¬ ((3600 : Int) ≤ 0 + 3600 - 60) := ⟨rfl, by decide⟩

/-- C7 (amended): on every successful login or refresh (REST login,
Firebase sign-in, Firebase refresh) the stored expiry is exactly
`now + expiresInSeconds` (default 3600 when the server omits the field)
with NO safety margin subtracted; staleness headroom comes only from the
5-minute buffer applied at read time by the getters. -/
theorem c7_amended (st : AuthSt) (now : Int)
    (tok uid idTok refTok idTok2 refTok2 : Option String)
    (ei1 ei2 ei3 : Option Int) (hu : pyStrTruthy st.userId = true) :
    loginRest st now (.success tok uid ei1)
      = .ok { st with restToken := tok, userId := uid,
                      restExpiry := some (now + ei1.getD 3600) } ∧
    loginFirebase st now (.success idTok refTok ei2)
      = .ok { st with fbToken := idTok, fbRefresh := refTok,
                      fbExpiry := some (now + ei2.getD 3600) } ∧
    refreshFirebase st now (.success idTok2 refTok2 ei3)
      = .ok { st with fbToken := idTok2, fbRefresh := refTok2,
                      fbExpiry := some (now + ei3.getD 3600) } := by
  refine ⟨rfl, ?_, rfl⟩
  simp [loginFirebase, hu]

/-- Witness for `c7_amended` with user id `"U"`, time 50 and
`expires_in` values 100, absent (default 3600) and 7. -/
theorem c7_amended_witness :
    pyStrTruthy (AuthSt.userId { userId := some "U" }) = true ∧
    (loginRest { userId := some "U" } 50 (.success (some "T") (some "U2") (some 100))
       = .ok { userId := some "U2", restToken := some "T", restExpiry := some 150 } ∧
     loginFirebase { userId := some "U" } 50 (.success (some "I") (some "R") none)
       = .ok { userId := some "U", fbToken := some "I", fbRefresh := some "R",
               fbExpiry := some 3650 } ∧
     refreshFirebase { userId := some "U" } 50 (.success (some "I2") (some "R2") (some 7))
       = .ok { userId := some "U", fbToken := some "I2", fbRefresh := some "R2",
               fbExpiry := some 57 }) :=
  ⟨rfl, c7_amended { userId := some "U" } 50 (some "T") (some "U2") (some "I")
    (some "R") (some "I2") (some "R2") (some 100) none (some 7) rfl⟩

/-! ## Claim C4 -/

/-- C4: with truthy credentials, (1) a REST login failure makes
`async_setup_entry` raise (abort) for every Firebase outcome, storing
nothing; (2) a Firebase login failure after a successful REST login does
NOT abort: setup completes, no websocket client is started regardless of
whether `connect()` could succeed (`ws = none` in the stored session
state, surfacing the degradation), and the stored auth state keeps the
REST token for REST-only operation. -/
theorem c4_setup_failure_semantics (now : Int) (email password : Option String)
    (fbResp : FbLoginResp) (wsOk : Bool) (devs : List JVal)
    (tok uid : Option String) (ei : Option Int)
    (he : pyStrTruthy email = true) (hp : pyStrTruthy password = true) :
    setupEntry now email password .failure fbResp wsOk devs = .error () ∧
    setupEntry now email password (.success tok uid ei) .failure wsOk devs
      = .ok { auth := { restToken := tok, userId := uid,
                        restExpiry := some (now + ei.getD 3600) },
              ws := none, devices := devs } := by
  constructor
  · simp [setupEntry, he, hp, loginRest]
  · simp [setupEntry, he, hp, loginRest, loginFirebase, isFbTokenValid]

/-- Witness for `c4_setup_failure_semantics` at concrete inputs. -/
theorem c4_setup_witness :
    pyStrTruthy (some "a@b.c") = true ∧ pyStrTruthy (some "pw") = true ∧
    (setupEntry 0 (some "a@b.c") (some "pw") .failure .failure true [] = .error () ∧
     setupEntry 0 (some "a@b.c") (some "pw")
         (.success (some "T") (some "U") (some 3600)) .failure true []
       = .ok { auth := { restToken := some "T", userId := some "U",
                         restExpiry := some 3600 },
               ws := none, devices := [] }) :=
  ⟨rfl, rfl, c4_setup_failure_semantics 0 (some "a@b.c") (some "pw") .failure
    true [] (some "T") (some "U") (some 3600) rfl rfl⟩

/-! ## Claim C6 -/

theorem reconnectDelay_def (n : ℕ) (u : ℚ) :
    reconnectDelay n u
      = max 0 (min ((1:ℚ) * 2 ^ (n-1)) 60 + u * min ((1:ℚ) * 2 ^ (n-1)) 60) := rfl

/-- C6: for every reconnect attempt number n in 1..5 (counter not reset)
and every jitter draw u in [-0.1, 0.1], the computed reconnect delay lies
within [0.9·min(2^(n-1), 60), 1.1·min(2^(n-1), 60)] seconds. -/
theorem c6_reconnect_delay (n : ℕ) (u : ℚ) (h1 : 1 ≤ n) (h5 : n ≤ 5)
    (hl : -(1/10) ≤ u) (hr : u ≤ 1/10) :
    (9/10) * min ((2:ℚ) ^ (n-1)) 60 ≤ reconnectDelay n u ∧
    reconnectDelay n u ≤ (11/10) * min ((2:ℚ) ^ (n-1)) 60 := by
  have hle : (2:ℚ) ^ (n-1) ≤ 60 := by
    calc (2:ℚ) ^ (n-1) ≤ 2 ^ 4 := by
          apply pow_le_pow_right₀ (by norm_num) (by omega)
      _ ≤ 60 := by norm_num
  have hmin : min ((2:ℚ) ^ (n-1)) 60 = (2:ℚ) ^ (n-1) := min_eq_left hle
  have hd : (0:ℚ) < 2 ^ (n-1) := by positivity
  rw [reconnectDelay_def, one_mul, hmin]
  have h0 : (0:ℚ) ≤ 2 ^ (n-1) + u * 2 ^ (n-1) := by nlinarith
  rw [max_eq_right h0]
  constructor <;> nlinarith

/-- Witness for `c6_reconnect_delay`: attempt 3 with jitter draw 1/20. -/
theorem c6_reconnect_delay_witness :
    (9/10) * min ((2:ℚ) ^ (3-1)) 60 ≤ reconnectDelay 3 (1/20) ∧
    reconnectDelay 3 (1/20) ≤ (11/10) * min ((2:ℚ) ^ (3-1)) 60 :=
  c6_reconnect_delay 3 (1/20) (by norm_num) (by norm_num) (by norm_num)
    (by norm_num)

/-! ## Claims C8 and C10: `RointeWebSocket.send` -/

theorem lookup_dictSet_self (kvs : List (String × JVal)) (k : String) (v : JVal) :
    List.lookup k (dictSet kvs k v) = some v := by
  induction kvs with
  | nil => simp [dictSet, List.lookup]
  | cons p rest ih =>
    cases hp : (p.1 == k) with
    | true => simp [dictSet, hp, List.lookup]
    | false =>
      have hk : (k == p.1) = false := by
        simp only [beq_eq_false_iff_ne] at hp ⊢
        exact fun h => hp h.symm
      simp [dictSet, hp, List.lookup, hk, ih]

theorem lookup_dictSet_other (kvs : List (String × JVal)) (k k' : String)
    (v : JVal) (h : k' ≠ k) :
    List.lookup k' (dictSet kvs k v) = List.lookup k' kvs := by
  have hk : (k' == k) = false := by simpa [beq_eq_false_iff_ne] using h
  induction kvs with
  | nil => simp [dictSet, List.lookup, hk]
  | cons p rest ih =>
    cases hp : (p.1 == k) with
    | true =>
      have hpk : (k' == p.1) = false := by
        have : p.1 = k := by simpa using hp
        rw [this]; exact hk
      simp [dictSet, hp, List.lookup, hk, hpk]
    | false => simp [dictSet, hp, List.lookup, ih]

/-- Stored device list for the C8 scenario: `uuid-A` has serial `S8`. -/
def c8Data : List JVal :=
  [.obj [("devices", .arr [.obj [("id", .str "uuid-A"),
                                 ("serialNumber", .str "S8")]])]]

/-- C8 is partly false: `send("uuid-A", {"power":2})` while disconnected
performs zero socket writes and raises nothing, but it returns `None` —
the very value the successful send path also returns (both fall through
with no `return` value), so the caller receives NO failure indicator
distinguishable from success; the failure is visible only in the log.
The write list (empty vs one frame) differs, but the return value does
not. -/
theorem c8_counterexample :
    (sendWs false c8Data "uuid-A" [("power", .num 2)] 1000 5).writes = [] ∧
    (sendWs false c8Data "uuid-A" [("power", .num 2)] 1000 5).retval
      = (sendWs true c8Data "uuid-A" [("power", .num 2)] 1000 5).retval ∧
    (sendWs true c8Data "uuid-A" [("power", .num 2)] 1000 5).writes.length = 1 :=
  ⟨rfl, rfl, rfl⟩

/-- C8 (amended): every call to `send` while the websocket is absent or
closed performs zero socket writes, raises nothing, leaves the caller's
updates untouched and the request counter unchanged, and returns `None`
— the same value as the success case, so the only failure signal is the
log entry. -/
theorem c8_amended (rointeData : List JVal) (deviceId : String)
    (updates : List (String × JVal)) (nowMs rid : Int) :
    sendWs false rointeData deviceId updates nowMs rid
      = { writes := [], retval := .null, updatesAfter := updates, rid := rid } :=
  rfl

/-- C10: whenever `send` resolves the device's serial number and reaches
the encoding step, the caller's `updates` dict is mutated in place: the
key `last_sync_datetime_device` is set (added or overwritten) to the
current millisecond timestamp before serialisation, every other key
keeps its original value, and the single frame written carries exactly
the mutated dict. -/
theorem c10_send_stamps_updates (data : List JVal) (did : String)
    (upd : List (String × JVal)) (nowMs rid : Int) (sv : JVal)
    (hfind : findSerial data did = .ok (some sv)) :
    (sendWs true data did upd nowMs rid).updatesAfter
      = dictSet upd "last_sync_datetime_device" (.num nowMs) ∧
    List.lookup "last_sync_datetime_device"
        (sendWs true data did upd nowMs rid).updatesAfter = some (.num nowMs) ∧
    (∀ k, k ≠ "last_sync_datetime_device" →
      List.lookup k (sendWs true data did upd nowMs rid).updatesAfter
        = List.lookup k upd) ∧
    (sendWs true data did upd nowMs rid).writes
      = [sendFrame (rid + 1) sv
          (dictSet upd "last_sync_datetime_device" (.num nowMs))] := by
  have hout : sendWs true data did upd nowMs rid
      = { writes := [sendFrame (rid + 1) sv
            (dictSet upd "last_sync_datetime_device" (.num nowMs))],
          retval := .null,
          updatesAfter := dictSet upd "last_sync_datetime_device" (.num nowMs),
          rid := rid + 1 } := by
    unfold sendWs
    rw [hfind]
    rfl
  rw [hout]
  exact ⟨rfl, lookup_dictSet_self upd _ _,
    fun k hk => lookup_dictSet_other upd _ k _ hk, rfl⟩

/-- Stored device list for the C10 witness: `uuid-B` has serial `S10`. -/
def c10Data : List JVal :=
  [.obj [("devices", .arr [.obj [("id", .str "uuid-B"),
                                 ("serialNumber", .str "S10")]])]]

/-- Witness for `c10_send_stamps_updates` on a concrete connected send. -/
theorem c10_send_stamps_updates_witness :
    findSerial c10Data "uuid-B" = .ok (some (.str "S10")) ∧
    ((sendWs true c10Data "uuid-B" [("power", .num 2)] 1700000 7).updatesAfter
       = dictSet [("power", .num 2)] "last_sync_datetime_device" (.num 1700000) ∧
     List.lookup "last_sync_datetime_device"
         (sendWs true c10Data "uuid-B" [("power", .num 2)] 1700000 7).updatesAfter
       = some (.num 1700000) ∧
     (∀ k, k ≠ "last_sync_datetime_device" →
       List.lookup k
           (sendWs true c10Data "uuid-B" [("power", .num 2)] 1700000 7).updatesAfter
         = List.lookup k [("power", .num 2)]) ∧
     (sendWs true c10Data "uuid-B" [("power", .num 2)] 1700000 7).writes
       = [sendFrame 8 (.str "S10")
           (dictSet [("power", .num 2)] "last_sync_datetime_device"
             (.num 1700000))]) :=
  ⟨rfl, c10_send_stamps_updates c10Data "uuid-B" [("power", .num 2)] 1700000 7
    (.str "S10") rfl⟩

/-! ## Claims C5 and C9: inbound routing -/

/-- A device-path data frame:
`{"t":"d","d":{"b":{"p":"devices/{S}/data","d":updates,"a":act}}}`. -/
def deviceFrame (S : String) (updates act : JVal) : JVal :=
  .obj [("t", .str "d"),
        ("d", .obj [("b", .obj [("p", .str ("devices/" ++ S ++ "/data")),
                                ("d", updates), ("a", act)])])]

/-- A zone-path data frame:
`{"t":"d","d":{"b":{"p":"zones/{Z}/data","d":updates,"a":act}}}`. -/
def zoneFrame (Z : String) (updates : JVal) (act : String) : JVal :=
  .obj [("t", .str "d"),
        ("d", .obj [("b", .obj [("p", .str ("zones/" ++ Z ++ "/data")),
                                ("d", updates), ("a", .str act)])])]

theorem entryScanSerial_none (S : String) (devs : List (List (String × JVal)))
    (h : ∀ kvs ∈ devs, jIsStrEq (pyGet (.obj kvs) "serialNumber") S = false) :
    entryScanSerial (devs.map JVal.obj) S = .ok none := by
  induction devs with
  | nil => rfl
  | cons kvs rest ih =>
    have h0 := h kvs (by simp)
    simp only [List.map_cons, entryScanSerial, h0, Bool.false_eq_true, if_false]
    exact ih (fun q hq => h q (by simp [hq]))

/-- C9: a device-path data frame whose serial (second path segment) does
not match the `serialNumber` of any device in the stored device list is
dropped: the handler returns (the Python handler catches every exception,
and in this path none is raised) performing zero dispatcher publishes —
for every payload, every action-tag value and every pending-request
set. -/
theorem c9_unknown_serial (S : String) (hs : '/' ∉ S.data)
    (devs : List (List (String × JVal)))
    (hnone : ∀ kvs ∈ devs, jIsStrEq (pyGet (.obj kvs) "serialNumber") S = false)
    (updates act : JVal) (pending : List Int) :
    handleMessage [.obj [("devices", .arr (devs.map JVal.obj))]] pending
      (deviceFrame S updates act) = [] := by
  have hfind : findUuid [.obj [("devices", .arr (devs.map JVal.obj))]] S
      = .ok none := by
    simp [findUuid, jHasKey, jGetOpt, entryScanSerial_none S devs hnone]
  simp [handleMessage, deviceFrame, pyGet, pyGetD, jGetOpt, jHasKey,
    jIsStrEq, List.lookup]
  intro _hact
  simp [not_startsWith_zones, startsWith_devices, pathSegs_device S hs, hfind]

/-- A device list with one device whose serial `SN1` differs from the
frame serial `SNX`. -/
def c9WitnessDevs : List (List (String × JVal)) :=
  [[("serialNumber", .str "SN1"), ("id", .str "u1")]]

/-- Witness for `c9_unknown_serial` on a concrete unknown-serial frame. -/
theorem c9_unknown_serial_witness :
    ('/' ∉ "SNX".data) ∧
    (∀ kvs ∈ c9WitnessDevs,
      jIsStrEq (pyGet (.obj kvs) "serialNumber") "SNX" = false) ∧
    handleMessage [.obj [("devices", .arr (c9WitnessDevs.map JVal.obj))]] []
        (deviceFrame "SNX" (.obj [("temp", .num 5)]) (.str "d")) = [] :=
  ⟨by decide, by decide,
    c9_unknown_serial "SNX" (by decide) c9WitnessDevs (by decide)
      (.obj [("temp", .num 5)]) (.str "d") []⟩

/-- The stored device list of the C5 scenario: exactly one device
(UUID `u1`) in zone `Z9`, and one device (`u2`) in another zone. -/
def c5Data : List JVal :=
  [.obj [("devices", .arr
    [.obj [("zone_id", .str "Z9"), ("id", .str "u1")],
     .obj [("zone_id", .str "other"), ("id", .str "u2")]])]]

/-- A wire-format zone push for `Z9` — the action tag at the `d` level,
as the Firebase protocol (spec §6) and the client's own outbound frames
place it. -/
def c5WireFrame : JVal :=
  .obj [("t", .str "d"),
        ("d", .obj [("a", .str "d"),
                    ("b", .obj [("p", .str "zones/Z9/data"),
                                ("d", .obj [("temp", .num 21)])])])]

/-- The same zone push with no action tag anywhere. -/
def c5BareFrame : JVal :=
  .obj [("t", .str "d"),
        ("d", .obj [("b", .obj [("p", .str "zones/Z9/data"),
                                ("d", .obj [("temp", .num 21)])])])]

/-- C5: for an inbound data frame with path `zones/Z9/data` and exactly
one stored device (`u1`) in zone Z9, the handler performs ZERO
dispatcher publishes — not the claimed exactly-one publish keyed by u1.
As with C1, `_handle_message` demands the action tag `a ∈ {"d","m"}`
inside `b` (ws.py line 231), which neither a wire-format push (action at
the `d` level) nor an untagged frame carries; only a frame with the
action misplaced into `b` produces the claimed per-zone fan-out (one
publish keyed by `u1`, none for the other zone's `u2`). -/
theorem c5_zone_routing_dead :
    handleMessage c5Data [] c5WireFrame = [] ∧
    handleMessage c5Data [] c5BareFrame = [] ∧
    handleMessage c5Data [] (zoneFrame "Z9" (.obj [("temp", .num 21)]) "d")
      = [("rointe_device_update_u1", .obj [("temp", .num 21)])] :=
  ⟨rfl, rfl, rfl⟩

end Rointe
